import Mathlib

/-!
Verification of the Duration Correction Decision Engine and its helpers,
embedded from the repository sources:
  - src/corrected_converter.py  (read_ms_project_corrected, format_predecessors,
    export_corrected_excel)
  - src/gantt_visualizer.py     (prepare_gantt_data)
Numeric values are modelled as exact rationals; Python strings as Lean strings.
-/

namespace MSProject

/-- Embedding of Python's substring test f! `pat in s` used on duration strings. -/
def contains_substr (s pat : String) : Bool :=
  s.data.tails.any (fun t => pat.data.isPrefixOf t)

/-- Embedding of Python's `int(x)` on a float: truncation toward zero. -/
def py_int (q : ℚ) : ℤ :=
  if 0 ≤ q then q.floor else q.ceil

/-- Round the fraction n/d (with d > 0) to the nearest integer with ties to
even, the rounding used by Python's fixed-point string formatting. -/
def round_half_even (n d : ℤ) : ℤ :=
  let f := Int.fdiv n d
  let r := n - f * d
  if 2 * r < d then f
  else if d < 2 * r then f + 1
  else if f % 2 = 0 then f else f + 1

/-- Embedding of Python's format spec `.1f`: the value rendered with exactly
one digit after the decimal point (tenths obtained by ties-to-even rounding
of 10·q). -/
def format_one_decimal (q : ℚ) : String :=
  let t : ℤ := round_half_even (10 * q.num) (q.den : ℤ)
  let m : ℕ := t.natAbs
  (if t < 0 then "-" else "") ++ toString (m / 10) ++ "." ++ toString (m % 10)

/-- The closed set of provenance tags.  Each tag names one branch of the
decision logic in read_ms_project_corrected (src/corrected_converter.py):
  RawAccepted                    = duration_source "MPXJ"                 (line 68 default)
  RawAcceptedScaled24x           = "MPXJ corregido (x24)"                 (line 100)
  ReferenceAcceptedDayUnitFix    = "Nativo (corregido)"                   (line 80)
  RawValidatedByReference        = "MPXJ (validado)"                      (line 85)
  ReferenceAcceptedSuspectFactor = "Nativo (factor <f>x)"                 (line 89)
  ReferenceAcceptedRawZero       = "Nativo (MPXJ=0)"                      (line 94) -/
inductive ProvenanceTag where
  | RawAccepted
  | RawAcceptedScaled24x
  | ReferenceAcceptedDayUnitFix
  | RawValidatedByReference
  | ReferenceAcceptedSuspectFactor
  | ReferenceAcceptedRawZero
deriving DecidableEq, Repr

/-- The duration-related output of one loop iteration of
read_ms_project_corrected: corrected hours, corrected display string, the
literal Duration_Source string the code builds, the provenance tag naming the
branch taken, and the factor when one was computed (line 75). -/
structure CorrectedDurationRecord where
  correctedHours : ℚ
  correctedDisplayString : String
  durationSource : String
  source : ProvenanceTag
  factor : Option ℚ
deriving DecidableEq, Repr

/-- Embedding of src/corrected_converter.py lines 58-64: conversion of the MPXJ
duration object to hours.  `durationPresent` models `if duration_obj:`;
`durationValue` models `duration_obj.getDuration()`; `durationStr` models
`str(duration_obj)` (the empty string when the object is absent, line 56). -/
def mpxj_hours (durationPresent : Bool) (durationValue : ℚ) (durationStr : String) : ℚ :=
  if durationPresent then
    if contains_substr durationStr "eh" = true then durationValue
    else if contains_substr durationStr "d" = true then durationValue * 24
    else 0
  else 0

/-- Embedding of src/corrected_converter.py lines 66-102: the per-task duration
correction.  `mpxjDurationStr` and `mpxjHours` are the raw display string and
raw hours; `reference` is `native_data[task_id]['native_hours']` when
`task_id in native_data` and `none` otherwise.  The local variable `factor`
(line 75) is inlined as `nativeHours / mpxjHours`. -/
def correct (mpxjDurationStr : String) (mpxjHours : ℚ) (reference : Option ℚ) :
    CorrectedDurationRecord :=
  match reference with
  | some nativeHours =>
    if 0 < mpxjHours then
      if 20 ≤ nativeHours / mpxjHours ∧ nativeHours / mpxjHours ≤ 28 then
        { correctedHours := nativeHours
          correctedDisplayString := format_one_decimal nativeHours ++ "h"
          durationSource := "Nativo (corregido)"
          source := ProvenanceTag.ReferenceAcceptedDayUnitFix
          factor := some (nativeHours / mpxjHours) }
      else if (0.8 : ℚ) ≤ nativeHours / mpxjHours ∧ nativeHours / mpxjHours ≤ (1.2 : ℚ) then
        { correctedHours := mpxjHours
          correctedDisplayString := mpxjDurationStr
          durationSource := "MPXJ (validado)"
          source := ProvenanceTag.RawValidatedByReference
          factor := some (nativeHours / mpxjHours) }
      else
        { correctedHours := nativeHours
          correctedDisplayString := format_one_decimal nativeHours ++ "h"
          durationSource := "Nativo (factor " ++ format_one_decimal (nativeHours / mpxjHours) ++ "x)"
          source := ProvenanceTag.ReferenceAcceptedSuspectFactor
          factor := some (nativeHours / mpxjHours) }
    else
      { correctedHours := nativeHours
        correctedDisplayString := format_one_decimal nativeHours ++ "h"
        durationSource := "Nativo (MPXJ=0)"
        source := ProvenanceTag.ReferenceAcceptedRawZero
        factor := none }
  | none =>
    if contains_substr mpxjDurationStr "eh" = true ∧ mpxjHours < 100 then
      { correctedHours := mpxjHours * 24
        correctedDisplayString := format_one_decimal (mpxjHours * 24) ++ "h"
        durationSource := "MPXJ corregido (x24)"
        source := ProvenanceTag.RawAcceptedScaled24x
        factor := none }
    else
      { correctedHours := mpxjHours
        correctedDisplayString := mpxjDurationStr
        durationSource := "MPXJ"
        source := ProvenanceTag.RawAccepted
        factor := none }

/-- A lag duration object, modelling `relation.getLag()`:
`duration` is `lag.getDuration()`, `units` is `lag.getUnits()` (none when the
Java getter returns null). -/
structure Lag where
  duration : ℚ
  units : Option String
deriving DecidableEq, Repr

/-- A predecessor relation as read by format_predecessors:
`predecessorTaskId` models `relation.getPredecessorTask().getID()` (none when
the predecessor task is absent), `relType` models `relation.getType()`,
`lag` models `relation.getLag()`. -/
structure Relation where
  predecessorTaskId : Option ℤ
  relType : Option String
  lag : Option Lag
deriving DecidableEq, Repr

/-- Embedding of src/corrected_converter.py lines 146-154 (identical in
src/ms_project_converter.py lines 44-54): the lag part of one token. -/
def lag_string (lag : Option Lag) : String :=
  match lag with
  | none => ""
  | some l =>
    if l.duration ≠ 0 then
      if 0 < l.duration then
        "+" ++ toString (py_int l.duration) ++ l.units.getD "d"
      else
        toString (py_int l.duration) ++ l.units.getD "d"
    else ""

/-- Embedding of src/corrected_converter.py lines 143-145 and 155: one
formatted token for a relation. -/
def relation_token (rel : Relation) : String :=
  (match rel.predecessorTaskId with
   | some i => toString i
   | none => "Unknown") ++ rel.relType.getD "FS" ++ lag_string rel.lag

/-- Embedding of format_predecessors (src/corrected_converter.py lines
136-157, identical in src/ms_project_converter.py lines 29-59). -/
def format_predecessors (preds : List Relation) : String :=
  match preds with
  | [] => ""
  | _ => String.intercalate "; " (preds.map relation_token)

/-- One row of the Tasks_Corrected sheet, restricted to the columns that the
summary computation of export_corrected_excel reads
(src/corrected_converter.py lines 168-188). -/
structure TaskRow where
  durationMpxjHours : ℚ
  durationCorrectedHours : ℚ
  durationSource : String
deriving DecidableEq, Repr

/-- The distinct Duration_Source keys, modelling the index of
`tasks_df['Duration_Source'].value_counts()` (line 171). -/
def source_keys (rows : List TaskRow) : List String :=
  (rows.map TaskRow.durationSource).dedup

/-- The count reported for one Duration_Source key (line 171). -/
def source_count (rows : List TaskRow) (s : String) : ℕ :=
  (rows.map TaskRow.durationSource).count s

/-- The percentage reported for one Duration_Source key,
`count/len(tasks_df)*100` (line 176). -/
def source_percentage (rows : List TaskRow) (s : String) : ℚ :=
  (source_count rows s : ℚ) / (rows.length : ℚ) * 100

/-- `tasks_df['Duration_MPXJ_Hours'].sum()` (line 180). -/
def total_original_hours (rows : List TaskRow) : ℚ :=
  (rows.map TaskRow.durationMpxjHours).sum

/-- `tasks_df['Duration_Corrected_Hours'].sum()` (line 181). -/
def total_corrected_hours (rows : List TaskRow) : ℚ :=
  (rows.map TaskRow.durationCorrectedHours).sum

/-- The Correction factor cell (line 187): the ratio when the original-hours
total is positive, `none` modelling the literal string N/A otherwise. -/
def correction_factor (rows : List TaskRow) : Option ℚ :=
  if 0 < total_original_hours rows then
    some (total_corrected_hours rows / total_original_hours rows)
  else none

/-- A row of the sheet read by prepare_gantt_data, restricted to the Start and
Finish cells; `none` models a missing (NaN) cell. -/
structure GanttRow where
  start : Option String
  finish : Option String
deriving DecidableEq, Repr

/-- Embedding of src/gantt_visualizer.py line 72:
`df = df[df['Start'].notna() & df['Finish'].notna()].copy()`. -/
def filter_rows_with_dates (rows : List GanttRow) : List GanttRow :=
  rows.filter (fun r => r.start.isSome && r.finish.isSome)

/-! ## Helper lemmas -/

/-- Summing x/L*C over a list of rationals factors through the plain sum. -/
theorem sum_div_mul (l : List ℚ) (L C : ℚ) :
    (l.map fun x => x / L * C).sum = l.sum / L * C := by
  induction l with
  | nil => simp
  | cons a t ih => simp only [List.map_cons, List.sum_cons, ih]; ring

/-- Casting a sum of natural counts into ℚ commutes with the list sum. -/
theorem sum_map_natCast {α : Type} (l : List α) (f : α → ℕ) :
    (l.map fun x => ((f x : ℕ) : ℚ)).sum = (((l.map f).sum : ℕ) : ℚ) := by
  induction l with
  | nil => simp
  | cons a t ih => simp [ih]

/-- Summing, over the distinct elements of a list, the number of occurrences
of each, recovers the length of the list. -/
theorem dedup_count_sum {α : Type} [DecidableEq α] (l : List α) :
    (l.dedup.map fun x => l.count x).sum = l.length := by
  have hnd : l.dedup.Nodup := l.nodup_dedup
  have h2 : l.dedup.toFinset = l.toFinset := by
    ext a
    simp
  calc (l.dedup.map fun x => l.count x).sum
      = l.dedup.toFinset.sum (fun x => l.count x) := (List.sum_toFinset _ hnd).symm
    _ = l.toFinset.sum (fun x => l.count x) := by rw [h2]
    _ = l.length := List.sum_toFinset_count_eq_length l

/-! ## Claim theorems -/

/-- C1: for rawHours > 0 with a reference present and
factor = referenceHours/rawHours in [20, 28], the corrected record carries
the reference hours, the tag ReferenceAcceptedDayUnitFix, and a display
string that is the accepted hour value to one decimal place followed by h. -/
theorem day_unit_fix_band (s : String) (rawHours referenceHours : ℚ)
    (hpos : 0 < rawHours)
    (hlo : 20 ≤ referenceHours / rawHours) (hhi : referenceHours / rawHours ≤ 28) :
    (correct s rawHours (some referenceHours)).correctedHours = referenceHours ∧
    (correct s rawHours (some referenceHours)).source =
      ProvenanceTag.ReferenceAcceptedDayUnitFix ∧
    (correct s rawHours (some referenceHours)).correctedDisplayString =
      format_one_decimal referenceHours ++ "h" := by
  simp [correct, hpos, hlo, hhi]

/-- C1 witness at rawHours = 10, referenceHours = 240 (factor 24). -/
theorem day_unit_fix_band_witness :
    (correct "10.0eh" 10 (some 240)).correctedHours = 240 ∧
    (correct "10.0eh" 10 (some 240)).source = ProvenanceTag.ReferenceAcceptedDayUnitFix ∧
    (correct "10.0eh" 10 (some 240)).correctedDisplayString =
      format_one_decimal 240 ++ "h" :=
  day_unit_fix_band "10.0eh" 10 240 (by norm_num) (by norm_num) (by norm_num)

/-- C2: for rawHours > 0 with a reference present and
factor = referenceHours/rawHours in [0.8, 1.2], the corrected record keeps
the raw hours and the original display string, tag RawValidatedByReference. -/
theorem raw_validated_band (s : String) (rawHours referenceHours : ℚ)
    (hpos : 0 < rawHours)
    (hlo : (0.8 : ℚ) ≤ referenceHours / rawHours)
    (hhi : referenceHours / rawHours ≤ (1.2 : ℚ)) :
    (correct s rawHours (some referenceHours)).correctedHours = rawHours ∧
    (correct s rawHours (some referenceHours)).source =
      ProvenanceTag.RawValidatedByReference ∧
    (correct s rawHours (some referenceHours)).correctedDisplayString = s := by
  have hnot : ¬(20 ≤ referenceHours / rawHours ∧ referenceHours / rawHours ≤ 28) := by
    rintro ⟨h20, -⟩
    have : (20 : ℚ) ≤ 1.2 := le_trans h20 hhi
    norm_num at this
  simp [correct, hpos, hnot, hlo, hhi]

/-- C2 witness at rawHours = 768, referenceHours = 750 (factor 125/128). -/
theorem raw_validated_band_witness :
    (correct "768.0eh" 768 (some 750)).correctedHours = 768 ∧
    (correct "768.0eh" 768 (some 750)).source = ProvenanceTag.RawValidatedByReference ∧
    (correct "768.0eh" 768 (some 750)).correctedDisplayString = "768.0eh" :=
  raw_validated_band "768.0eh" 768 750 (by norm_num) (by norm_num) (by norm_num)

/-- C3: for rawHours > 0 with a reference present and the factor outside both
bands, the corrected record carries the reference hours, the tag
ReferenceAcceptedSuspectFactor, the factor field holding the true ratio, and
a Duration_Source string reporting the ratio to one decimal place. -/
theorem suspect_factor_band (s : String) (rawHours referenceHours : ℚ)
    (hpos : 0 < rawHours)
    (hn1 : ¬(20 ≤ referenceHours / rawHours ∧ referenceHours / rawHours ≤ 28))
    (hn2 : ¬((0.8 : ℚ) ≤ referenceHours / rawHours ∧
      referenceHours / rawHours ≤ (1.2 : ℚ))) :
    (correct s rawHours (some referenceHours)).correctedHours = referenceHours ∧
    (correct s rawHours (some referenceHours)).source =
      ProvenanceTag.ReferenceAcceptedSuspectFactor ∧
    (correct s rawHours (some referenceHours)).factor =
      some (referenceHours / rawHours) ∧
    (correct s rawHours (some referenceHours)).durationSource =
      "Nativo (factor " ++ format_one_decimal (referenceHours / rawHours) ++ "x)" := by
  simp [correct, hpos, hn1, hn2]

/-- C3 witness at rawHours = 10, referenceHours = 34 (factor 3.4). -/
theorem suspect_factor_band_witness :
    (correct "10.0eh" 10 (some 34)).correctedHours = 34 ∧
    (correct "10.0eh" 10 (some 34)).source =
      ProvenanceTag.ReferenceAcceptedSuspectFactor ∧
    (correct "10.0eh" 10 (some 34)).factor = some ((34 : ℚ) / 10) ∧
    (correct "10.0eh" 10 (some 34)).durationSource =
      "Nativo (factor " ++ format_one_decimal ((34 : ℚ) / 10) ++ "x)" :=
  suspect_factor_band "10.0eh" 10 34 (by norm_num) (by norm_num) (by norm_num)

/-- C4: with rawHours = 0 and a reference present, the corrected record
carries the reference hours and the tag ReferenceAcceptedRawZero, whatever
the magnitude of the reference. -/
theorem raw_zero_reference (s : String) (referenceHours : ℚ) :
    (correct s 0 (some referenceHours)).correctedHours = referenceHours ∧
    (correct s 0 (some referenceHours)).source =
      ProvenanceTag.ReferenceAcceptedRawZero := by
  simp [correct]

/-- C5: with no reference, an elapsed-hours raw string with rawHours < 100 is
scaled by 24 under tag RawAcceptedScaled24x; every other no-reference case
passes the raw value and display string through under tag RawAccepted. -/
theorem no_reference_branch (s : String) (rawHours : ℚ) :
    ((contains_substr s "eh" = true ∧ rawHours < 100) →
      (correct s rawHours none).correctedHours = rawHours * 24 ∧
      (correct s rawHours none).source = ProvenanceTag.RawAcceptedScaled24x) ∧
    (¬(contains_substr s "eh" = true ∧ rawHours < 100) →
      (correct s rawHours none).correctedHours = rawHours ∧
      (correct s rawHours none).correctedDisplayString = s ∧
      (correct s rawHours none).source = ProvenanceTag.RawAccepted) := by
  constructor
  · rintro ⟨h1, h2⟩
    simp [correct, h1, h2]
  · intro h
    simp [correct, h]

/-- C5 witness: the scaling branch at 40.0eh / 40 hours and the pass-through
branch at 300.0eh / 300 hours. -/
theorem no_reference_branch_witness :
    ((correct "40.0eh" 40 none).correctedHours = 40 * 24 ∧
      (correct "40.0eh" 40 none).source = ProvenanceTag.RawAcceptedScaled24x) ∧
    ((correct "300.0eh" 300 none).correctedHours = 300 ∧
      (correct "300.0eh" 300 none).correctedDisplayString = "300.0eh" ∧
      (correct "300.0eh" 300 none).source = ProvenanceTag.RawAccepted) :=
  ⟨(no_reference_branch "40.0eh" 40).1 ⟨by decide, by norm_num⟩,
   (no_reference_branch "300.0eh" 300).2 (by
    rintro ⟨-, h⟩
    norm_num at h)⟩

/-- C6: under nonnegative inputs, every corrected record has nonnegative
corrected hours, exactly one provenance tag, and a factor that is present
exactly for the three reference-comparison tags, in which case it equals
referenceHours / rawHours. -/
theorem engine_invariants (s : String) (rawHours : ℚ) (reference : Option ℚ)
    (hraw : 0 ≤ rawHours) (href : ∀ r, reference = some r → 0 ≤ r) :
    0 ≤ (correct s rawHours reference).correctedHours ∧
    (∃! t : ProvenanceTag, (correct s rawHours reference).source = t) ∧
    ((correct s rawHours reference).factor ≠ none ↔
      ((correct s rawHours reference).source = ProvenanceTag.ReferenceAcceptedDayUnitFix ∨
       (correct s rawHours reference).source = ProvenanceTag.RawValidatedByReference ∨
       (correct s rawHours reference).source =
         ProvenanceTag.ReferenceAcceptedSuspectFactor)) ∧
    (∀ f, (correct s rawHours reference).factor = some f →
      ∃ r, reference = some r ∧ f = r / rawHours) := by
  cases reference with
  | none =>
    simp only [correct]
    split_ifs with h
    · exact ⟨mul_nonneg hraw (by norm_num), ⟨_, rfl, fun y hy => hy.symm⟩,
        by simp, by simp⟩
    · exact ⟨hraw, ⟨_, rfl, fun y hy => hy.symm⟩, by simp, by simp⟩
  | some r =>
    have h0 : 0 ≤ r := href r rfl
    simp only [correct]
    split_ifs with h1 h2 h3
    · exact ⟨h0, ⟨_, rfl, fun y hy => hy.symm⟩, by simp,
        fun f hf => ⟨r, rfl, (Option.some.inj hf).symm⟩⟩
    · exact ⟨hraw, ⟨_, rfl, fun y hy => hy.symm⟩, by simp,
        fun f hf => ⟨r, rfl, (Option.some.inj hf).symm⟩⟩
    · exact ⟨h0, ⟨_, rfl, fun y hy => hy.symm⟩, by simp,
        fun f hf => ⟨r, rfl, (Option.some.inj hf).symm⟩⟩
    · exact ⟨h0, ⟨_, rfl, fun y hy => hy.symm⟩, by simp, by simp⟩

/-- C6 witness at rawHours = 10, reference = 240. -/
theorem engine_invariants_witness :
    0 ≤ (correct "10.0eh" 10 (some 240)).correctedHours ∧
    (∃! t : ProvenanceTag, (correct "10.0eh" 10 (some 240)).source = t) ∧
    ((correct "10.0eh" 10 (some 240)).factor ≠ none ↔
      ((correct "10.0eh" 10 (some 240)).source =
        ProvenanceTag.ReferenceAcceptedDayUnitFix ∨
       (correct "10.0eh" 10 (some 240)).source = ProvenanceTag.RawValidatedByReference ∨
       (correct "10.0eh" 10 (some 240)).source =
         ProvenanceTag.ReferenceAcceptedSuspectFactor)) ∧
    (∀ f, (correct "10.0eh" 10 (some 240)).factor = some f →
      ∃ r, (some 240 : Option ℚ) = some r ∧ f = r / 10) :=
  engine_invariants "10.0eh" 10 (some 240) (by norm_num)
    (fun r hr => by cases hr; norm_num)

/-- C7: format_predecessors emits one token id-type-lag per relation joined
with a semicolon and space; the id degrades to Unknown, the type to FS; the
lag token is empty at lag 0 and otherwise the signed integer lag followed by
the unit; the empty sequence gives the empty string; and the three concrete
examples of the spec hold. -/
theorem format_predecessors_spec :
    format_predecessors [] = "" ∧
    (∀ preds : List Relation,
      format_predecessors preds = String.intercalate "; " (preds.map relation_token)) ∧
    (∀ u : Option String, lag_string (some ⟨0, u⟩) = "") ∧
    lag_string none = "" ∧
    (∀ (v : ℚ) (u : Option String), 0 < v →
      lag_string (some ⟨v, u⟩) = "+" ++ toString (py_int v) ++ u.getD "d") ∧
    (∀ (v : ℚ) (u : Option String), v < 0 →
      lag_string (some ⟨v, u⟩) = toString (py_int v) ++ u.getD "d") ∧
    relation_token ⟨some 5, some "SS", some ⟨2, some "d"⟩⟩ = "5SS+2d" ∧
    relation_token ⟨some 5, some "FS", some ⟨0, some "d"⟩⟩ = "5FS" ∧
    relation_token ⟨none, some "FS", none⟩ = "UnknownFS" := by
  refine ⟨rfl, ?_, ?_, rfl, ?_, ?_, by decide, by decide, by decide⟩
  · intro preds
    cases preds <;> rfl
  · intro u
    simp [lag_string]
  · intro v u hv
    have hne : v ≠ 0 := ne_of_gt hv
    simp [lag_string, hne, hv]
  · intro v u hv
    have hne : v ≠ 0 := ne_of_lt hv
    have hnpos : ¬0 < v := not_lt_of_lt hv
    simp [lag_string, hne, hnpos]

/-- C7 witness: the signed-lag law applied at lag +2 with unit d. -/
theorem format_predecessors_spec_witness :
    lag_string (some ⟨2, some "d"⟩) = "+" ++ toString (py_int 2) ++ (some "d").getD "d" :=
  format_predecessors_spec.2.2.2.2.1 2 (some "d") (by norm_num)

/-- C8: for a nonempty list of rows, the per-key counts of the summary sheet
sum to the row count, the per-key percentages sum to exactly 100, and the
correction-factor cell is the ratio of total corrected to total original
hours when the original total is positive and N/A (none) when it is zero. -/
theorem aggregator_consistency (rows : List TaskRow) (hne : rows ≠ []) :
    ((source_keys rows).map fun s => source_count rows s).sum = rows.length ∧
    ((source_keys rows).map fun s => source_percentage rows s).sum = 100 ∧
    (0 < total_original_hours rows →
      correction_factor rows =
        some (total_corrected_hours rows / total_original_hours rows)) ∧
    (total_original_hours rows = 0 → correction_factor rows = none) := by
  have hcount : ((source_keys rows).map fun s => source_count rows s).sum = rows.length := by
    have h := dedup_count_sum (rows.map TaskRow.durationSource)
    rw [List.length_map] at h
    exact h
  refine ⟨hcount, ?_, ?_, ?_⟩
  · have hL : ((rows.length : ℕ) : ℚ) ≠ 0 := by
      have : rows.length ≠ 0 := fun h => hne (List.length_eq_zero.mp h)
      exact_mod_cast this
    have h3 : ((source_keys rows).map fun s => source_percentage rows s) =
        ((source_keys rows).map fun s => ((source_count rows s : ℕ) : ℚ)).map
          (fun x => x / ((rows.length : ℕ) : ℚ) * 100) := by
      rw [List.map_map]
      rfl
    rw [h3, sum_div_mul, sum_map_natCast, hcount, div_self hL, one_mul]
  · intro h
    simp [correction_factor, h]
  · intro h
    simp [correction_factor, h]

/-- C8 witness on a two-row table. -/
theorem aggregator_consistency_witness :
    ((source_keys [⟨10, 240, "Nativo (corregido)"⟩, ⟨5, 5, "MPXJ"⟩]).map fun s =>
      source_count [⟨10, 240, "Nativo (corregido)"⟩, ⟨5, 5, "MPXJ"⟩] s).sum =
      ([⟨10, 240, "Nativo (corregido)"⟩, ⟨5, 5, "MPXJ"⟩] : List TaskRow).length ∧
    ((source_keys [⟨10, 240, "Nativo (corregido)"⟩, ⟨5, 5, "MPXJ"⟩]).map fun s =>
      source_percentage [⟨10, 240, "Nativo (corregido)"⟩, ⟨5, 5, "MPXJ"⟩] s).sum = 100 ∧
    (0 < total_original_hours [⟨10, 240, "Nativo (corregido)"⟩, ⟨5, 5, "MPXJ"⟩] →
      correction_factor [⟨10, 240, "Nativo (corregido)"⟩, ⟨5, 5, "MPXJ"⟩] =
        some (total_corrected_hours [⟨10, 240, "Nativo (corregido)"⟩, ⟨5, 5, "MPXJ"⟩] /
          total_original_hours [⟨10, 240, "Nativo (corregido)"⟩, ⟨5, 5, "MPXJ"⟩])) ∧
    (total_original_hours [⟨10, 240, "Nativo (corregido)"⟩, ⟨5, 5, "MPXJ"⟩] = 0 →
      correction_factor [⟨10, 240, "Nativo (corregido)"⟩, ⟨5, 5, "MPXJ"⟩] = none) :=
  aggregator_consistency [⟨10, 240, "Nativo (corregido)"⟩, ⟨5, 5, "MPXJ"⟩] (by simp)

/-- C9 counterexample: a row carrying a Start value but no Finish value is a
row with at least one of the two dates, yet the filter drops it, so the
claimed retention rule fails on this input. -/
theorem gantt_filter_counterexample :
    ((⟨some "2025-01-01", none⟩ : GanttRow).start.isSome = true ∨
      (⟨some "2025-01-01", none⟩ : GanttRow).finish.isSome = true) ∧
    filter_rows_with_dates [⟨some "2025-01-01", none⟩] = [] :=
  ⟨Or.inl rfl, rfl⟩

/-- C9 amended: a row is retained by the visualizer's filter exactly when it
has both a Start value and a Finish value; rows lacking either are excluded. -/
theorem gantt_filter_retained_iff (rows : List GanttRow) (r : GanttRow) :
    r ∈ filter_rows_with_dates rows ↔
      r ∈ rows ∧ r.start.isSome = true ∧ r.finish.isSome = true := by
  simp [filter_rows_with_dates, List.mem_filter, and_assoc]

/-- C10: a duration string containing neither eh nor d yields raw hours 0,
so with a reference present the record is tagged ReferenceAcceptedRawZero
carrying the reference hours, and with no reference it passes through with
corrected hours 0 under tag RawAccepted. -/
theorem unparsed_unit_raw_zero (s : String) (durationValue referenceHours : ℚ)
    (h1 : contains_substr s "eh" = false) (h2 : contains_substr s "d" = false) :
    mpxj_hours true durationValue s = 0 ∧
    (correct s (mpxj_hours true durationValue s) (some referenceHours)).source =
      ProvenanceTag.ReferenceAcceptedRawZero ∧
    (correct s (mpxj_hours true durationValue s) (some referenceHours)).correctedHours =
      referenceHours ∧
    (correct s (mpxj_hours true durationValue s) none).correctedHours = 0 ∧
    (correct s (mpxj_hours true durationValue s) none).source =
      ProvenanceTag.RawAccepted := by
  have hz : mpxj_hours true durationValue s = 0 := by
    simp [mpxj_hours, h1, h2]
  rw [hz]
  refine ⟨rfl, ?_, ?_, ?_, ?_⟩ <;> simp [correct, h1]

/-- C10 witness at the working-hours string 40h with value 40 and a
reference of 240 hours. -/
theorem unparsed_unit_raw_zero_witness :
    mpxj_hours true 40 "40h" = 0 ∧
    (correct "40h" (mpxj_hours true 40 "40h") (some 240)).source =
      ProvenanceTag.ReferenceAcceptedRawZero ∧
    (correct "40h" (mpxj_hours true 40 "40h") (some 240)).correctedHours = 240 ∧
    (correct "40h" (mpxj_hours true 40 "40h") none).correctedHours = 0 ∧
    (correct "40h" (mpxj_hours true 40 "40h") none).source = ProvenanceTag.RawAccepted :=
  unparsed_unit_raw_zero "40h" 40 240 (by decide) (by decide)

end MSProject
